/-
Verification of the conversation session engine of the legally-assist-ai
repository: a shallow embedding of `src/lib/gemini.ts` (input validation,
error classification, the request gate and the streaming service wrapper)
and of the `useGemini` hook in `src/hooks/use-file-processor.ts`
(session state, send/retry/clear/addMessage, history truncation and the
automatic-retry scheduler), together with theorems settling the spec's
claims about them.

Modelling conventions:
- JS strings are Lean `String`s; index arithmetic is done on `List Char`
  (all inputs considered are ASCII, where UTF-16 indices and char-list
  indices coincide).
- JS numbers used as array indices are `Int` (they can go negative in
  `Array.prototype.slice`); durations and counters are `Nat`.
- The four deny-list `RegExp` objects carry the `g` flag, so each owns a
  mutable `lastIndex`; that state is threaded explicitly
  (`DangerousPatternStates`).
- The remote provider is an oracle parameter (`ProviderOutcome`): either
  a finite list of stream-chunk texts or a failure with a message text.
  The observable network side effect of `generateContentStream` is
  modelled by the `providerCalls` counter.
- The React hook's `setState(prev => ...)` updates act on the live state;
  plain reads of `state.*` inside a callback see the state captured when
  the callback's closure was created.  `sendMessage` therefore takes both
  a captured state `cap` and a live state `st`.  The timer scheduled in
  the catch block re-invokes the same closure, so the captured state is
  unchanged along the automatic-retry chain (`retryChain`).
- The streaming callback's transient updates to `streamingResponse` and
  `response` are modelled by their net effect on the final state.
-/

import Mathlib

namespace LegallyAssist

/-- Message roles, `'user' | 'model' | 'system'` in the source. -/
inductive Role
  | user
  | model
  | system
deriving DecidableEq

/-- A content part; the source's `Part` has an optional `text` field. -/
structure Part where
  text : Option String
deriving DecidableEq

/-- A conversation message: `{ role, parts }`. -/
structure ChatMessage where
  role : Role
  parts : List Part
deriving DecidableEq

/-- The `GeminiErrorType` enum of `src/lib/gemini.ts`. -/
inductive GeminiErrorType
  | API_KEY_MISSING
  | INVALID_INPUT
  | NETWORK_ERROR
  | RATE_LIMIT
  | CONTENT_FILTER
  | UNKNOWN_ERROR
deriving DecidableEq

/-- The `GeminiError` class: a classified kind plus a message text. -/
structure GeminiError where
  type : GeminiErrorType
  message : String
deriving DecidableEq

instance : DecidableEq (Except GeminiError String) := fun a b =>
  match a, b with
  | Except.ok x, Except.ok y =>
      if h : x = y then isTrue (by rw [h]) else
        isFalse (fun hc => h (Except.ok.inj hc))
  | Except.ok _, Except.error _ => isFalse (by intro h; exact Except.noConfusion h)
  | Except.error _, Except.ok _ => isFalse (by intro h; exact Except.noConfusion h)
  | Except.error e, Except.error f =>
      if h : e = f then isTrue (by rw [h]) else
        isFalse (fun hc => h (Except.error.inj hc))

/-- JS `\s` / `String.prototype.trim` whitespace (agrees on ASCII). -/
def jsWhitespace (c : Char) : Bool := c.isWhitespace

/-- Remove trailing whitespace from a char list. -/
def trimRightChars (l : List Char) : List Char :=
  (l.reverse.dropWhile jsWhitespace).reverse

/-- Remove leading and trailing whitespace from a char list. -/
def trimChars (l : List Char) : List Char :=
  trimRightChars (l.dropWhile jsWhitespace)

/-- JS `String.prototype.trim`. -/
def jsTrim (s : String) : String := String.mk (trimChars s.data)

/-- Case-insensitive character equality, as the `i` regex flag gives. -/
def lowerEq (a b : Char) : Bool := a.toLower == b.toLower

/-- JS regex `\w`: ASCII letters, digits and underscore. -/
def isWordChar (c : Char) : Bool := c.isAlpha || c.isDigit || c == '_'

/-- Case-insensitive "text begins with pattern". -/
def ciStartsWith : List Char → List Char → Bool
  | [], _ => true
  | _ :: _, [] => false
  | p :: ps, t :: ts => lowerEq p t && ciStartsWith ps ts

/-- Case-sensitive "text begins with pattern" (JS `String.includes`). -/
def csStartsWith : List Char → List Char → Bool
  | [], _ => true
  | _ :: _, [] => false
  | p :: ps, t :: ts => (p == t) && csStartsWith ps ts

/-- Case-sensitive substring test, modelling `String.prototype.includes`. -/
def containsSub (s pat : String) : Bool :=
  ((List.range (s.data.length + 1)).find?
    (fun i => csStartsWith pat.data (s.data.drop i))).isSome

/--
Search for the first regex match at a position `≥ start`, returning the
index one past the end of the match (the value fed back into
`lastIndex`).  `matchAt s i` decides whether the pattern matches at
position `i` and, if so, gives the match end.
-/
def findMatchEndFrom (matchAt : List Char → Nat → Option Nat)
    (s : List Char) (start : Nat) : Option Nat :=
  match (List.range (s.length + 1)).find?
      (fun i => decide (start ≤ i) && (matchAt s i).isSome) with
  | some i => matchAt s i
  | none => none

/--
`RegExp.prototype.test` for a regex with the `g` flag: the search starts
at the stored `lastIndex`; on success `lastIndex` becomes the match end,
on failure it is reset to `0`.  Returns `(hit, new lastIndex)`.
-/
def jsTestG (matchAt : List Char → Nat → Option Nat)
    (lastIndex : Nat) (s : List Char) : Bool × Nat :=
  match findMatchEndFrom matchAt s lastIndex with
  | some e => (true, e)
  | none => (false, 0)

/-- Matcher for a case-insensitive literal pattern at a given position. -/
def litCiMatchAt (pat : List Char) (s : List Char) (i : Nat) : Option Nat :=
  if ciStartsWith pat (s.drop i) then some (i + pat.length) else none

/-- The `/javascript:/gi` deny-list pattern. -/
def jsUriMatchAt : List Char → Nat → Option Nat :=
  litCiMatchAt "javascript:".data

/-- The `/data:text\/html/gi` deny-list pattern. -/
def dataHtmlMatchAt : List Char → Nat → Option Nat :=
  litCiMatchAt "data:text/html".data

/--
The `/on\w+\s*=/gi` deny-list pattern at position `i`: `on`, at least one
word character, optional whitespace, then `=`.  Backtracking over the
greedy `\w+` and `\s*` can only succeed with the maximal runs, since a
shorter `\w+` leaves a word character where `\s*` or `=` must match and a
shorter `\s*` leaves a whitespace character where `=` must match.
-/
def onAttrMatchAt (s : List Char) (i : Nat) : Option Nat :=
  match s.drop i with
  | c1 :: c2 :: rest2 =>
    if lowerEq c1 'o' && lowerEq c2 'n' then
      let w := (rest2.takeWhile isWordChar).length
      if w == 0 then none
      else
        let rest3 := rest2.drop w
        let m := (rest3.takeWhile jsWhitespace).length
        match rest3.drop m with
        | '=' :: _ => some (i + 2 + w + m + 1)
        | _ => none
    else none
  | _ => none

/--
The `/<script\b[^<]*(?:(?!<\/script>)<[^<]*)*<\/script>/gi` pattern at
position `i`.  The body `[^<]*(?:(?!<\/script>)<[^<]*)*` accepts exactly
the texts whose `<` occurrences do not begin `</script>`, so a match at
`i` is: `<script` (case-insensitively), a word boundary, then anything up
to the first following `</script>`, which must exist.
-/
def scriptTagMatchAt (s : List Char) (i : Nat) : Option Nat :=
  if ciStartsWith "<script".data (s.drop i) then
    let boundaryOk :=
      match s.drop (i + 7) with
      | [] => true
      | c :: _ => !isWordChar c
    if boundaryOk then
      match findMatchEndFrom (litCiMatchAt "</script>".data) s (i + 7) with
      | some e => some e
      | none => none
    else none
  else none

/--
The `lastIndex` values of the four shared `DANGEROUS_PATTERNS` regexes,
in source order: script tag, `javascript:` URI, inline event handler,
HTML data URI.
-/
structure DangerousPatternStates where
  scriptTagLast : Nat
  jsUriLast : Nat
  onAttrLast : Nat
  dataHtmlLast : Nat
deriving DecidableEq

/-- Fresh regex objects: every `lastIndex` is `0`. -/
def initialPatternStates : DangerousPatternStates := ⟨0, 0, 0, 0⟩

/-- The error thrown when a deny-list pattern fires. -/
def dangerousContentError : GeminiError :=
  ⟨GeminiErrorType.INVALID_INPUT, "Input contains potentially unsafe content"⟩

/--
`GeminiService.validateInput`: rejects empty input, whitespace-only
input, input longer than 100,000 characters and input matching a
deny-list pattern; returns the trimmed string.  The deny-list regexes
carry the `g` flag, so each test consumes and updates that pattern's
`lastIndex`; patterns after a firing one keep their previous state.
-/
def validateInput (ps : DangerousPatternStates) (input : String) :
    Except GeminiError String × DangerousPatternStates :=
  if input = "" then
    (Except.error ⟨GeminiErrorType.INVALID_INPUT,
      "Input must be a non-empty string"⟩, ps)
  else
    let trimmed := jsTrim input
    if trimmed.length = 0 then
      (Except.error ⟨GeminiErrorType.INVALID_INPUT,
        "Input cannot be empty or only whitespace"⟩, ps)
    else if 100000 < trimmed.length then
      (Except.error ⟨GeminiErrorType.INVALID_INPUT,
        "Input exceeds maximum length of 100,000 characters"⟩, ps)
    else
      let cs := trimmed.data
      let r1 := jsTestG scriptTagMatchAt ps.scriptTagLast cs
      let ps1 := { ps with scriptTagLast := r1.2 }
      if r1.1 then (Except.error dangerousContentError, ps1)
      else
        let r2 := jsTestG jsUriMatchAt ps1.jsUriLast cs
        let ps2 := { ps1 with jsUriLast := r2.2 }
        if r2.1 then (Except.error dangerousContentError, ps2)
        else
          let r3 := jsTestG onAttrMatchAt ps2.onAttrLast cs
          let ps3 := { ps2 with onAttrLast := r3.2 }
          if r3.1 then (Except.error dangerousContentError, ps3)
          else
            let r4 := jsTestG dataHtmlMatchAt ps3.dataHtmlLast cs
            let ps4 := { ps3 with dataHtmlLast := r4.2 }
            if r4.1 then (Except.error dangerousContentError, ps4)
            else (Except.ok trimmed, ps4)

example : (validateInput initialPatternStates "hello").1 = Except.ok "hello" := by decide
example : (validateInput initialPatternStates "  hi  ").1 = Except.ok "hi" := by decide
example : (validateInput initialPatternStates "javascript:x").1 =
    Except.error dangerousContentError := by decide
example : (validateInput initialPatternStates "a onclick = b").1 =
    Except.error dangerousContentError := by decide
example : (validateInput initialPatternStates "<script>bad()</script>").1 =
    Except.error dangerousContentError := by decide
example : (validateInput initialPatternStates "DATA:text/HTML,x").1 =
    Except.error dangerousContentError := by decide
example : (validateInput initialPatternStates "   ").1 =
    Except.error ⟨GeminiErrorType.INVALID_INPUT,
      "Input cannot be empty or only whitespace"⟩ := by decide

/--
State of the `GeminiService` singleton: the `requestInProgress` gate
flag, the shared deny-list regex states, and a counter of calls actually
issued to the remote provider (the observable effect of
`client.models.generateContentStream`).
-/
structure GeminiServiceState where
  requestInProgress : Bool
  patternStates : DangerousPatternStates
  providerCalls : Nat
deriving DecidableEq

/-- A freshly constructed service: gate free, fresh regexes, no calls. -/
def freshService : GeminiServiceState := ⟨false, initialPatternStates, 0⟩

/--
Oracle for one remote generation call: either the stream's chunk texts
in arrival order, or a transport/provider failure with a message text.
-/
inductive ProviderOutcome
  | chunks (texts : List String)
  | fail (message : String)

/-- The busy-gate error thrown when `requestInProgress` is already set. -/
def busyError : GeminiError :=
  ⟨GeminiErrorType.RATE_LIMIT,
    "A request is already in progress. Please wait for it to complete before sending another."⟩

/-- The error thrown when the concatenated stream text trims to empty. -/
def emptyResponseError : GeminiError :=
  ⟨GeminiErrorType.CONTENT_FILTER,
    "No response generated. Content may have been filtered for safety."⟩

/--
The catch-block classifier of `generateConversationResponse`: first
substring rule that matches the failure's message text wins.
-/
def classifyProviderError (msg : String) : GeminiError :=
  if containsSub msg "API_KEY" then
    ⟨GeminiErrorType.API_KEY_MISSING,
      "Invalid or expired API key. Please check your VITE_GEMINI_API_KEY."⟩
  else if containsSub msg "rate limit" || containsSub msg "quota" then
    ⟨GeminiErrorType.RATE_LIMIT, "API rate limit exceeded. Please try again later."⟩
  else if containsSub msg "network" || containsSub msg "fetch" then
    ⟨GeminiErrorType.NETWORK_ERROR,
      "Network error occurred. Please check your connection and try again."⟩
  else if containsSub msg "safety" || containsSub msg "blocked" then
    ⟨GeminiErrorType.CONTENT_FILTER,
      "Content was blocked by safety filters. Please rephrase your request."⟩
  else
    ⟨GeminiErrorType.UNKNOWN_ERROR, "Unexpected error: " ++ msg⟩

/-- Keep only `user` and `model` messages, as sent to the provider. -/
def filterForApi (msgs : List ChatMessage) : List ChatMessage :=
  msgs.filter (fun m => decide (m.role = Role.user) || decide (m.role = Role.model))

/--
The texts validated by the `contents.forEach` loop, in iteration order;
`if (part.text)` skips absent and empty texts.
-/
def partTexts (msgs : List ChatMessage) : List String :=
  (msgs.map (fun m => m.parts.filterMap
    (fun p => match p.text with
      | some t => if t = "" then none else some t
      | none => none))).flatten

/--
Run `validateInput` over a list of texts in order, stopping at the first
failure, threading the shared regex states.
-/
def validateTexts (ps : DangerousPatternStates) :
    List String → Except GeminiError Unit × DangerousPatternStates
  | [] => (Except.ok (), ps)
  | t :: ts =>
    match validateInput ps t with
    | (Except.ok _, ps1) => validateTexts ps1 ts
    | (Except.error e, ps1) => (Except.error e, ps1)

/--
`GeminiService.generateConversationResponse`: rejects while the gate is
held, otherwise takes the gate, filters out `system` messages, validates
every non-empty part text, issues the provider call, concatenates the
chunk texts, fails with `CONTENT_FILTER` when the result trims to empty,
classifies provider failures, and releases the gate on every exit path.
-/
def generateConversationResponse (svc : GeminiServiceState)
    (provider : ProviderOutcome) (messages : List ChatMessage) :
    Except GeminiError String × GeminiServiceState :=
  if svc.requestInProgress then (Except.error busyError, svc)
  else
    let svc1 : GeminiServiceState := { svc with requestInProgress := true }
    let contents := filterForApi messages
    match validateTexts svc1.patternStates (partTexts contents) with
    | (Except.error e, ps1) =>
      (Except.error e, { svc1 with patternStates := ps1, requestInProgress := false })
    | (Except.ok _, ps1) =>
      let svc2 : GeminiServiceState :=
        { svc1 with patternStates := ps1, providerCalls := svc1.providerCalls + 1 }
      match provider with
      | ProviderOutcome.fail m =>
        (Except.error (classifyProviderError m), { svc2 with requestInProgress := false })
      | ProviderOutcome.chunks ts =>
        let fullResponse := String.join ts
        if jsTrim fullResponse = "" then
          (Except.error emptyResponseError, { svc2 with requestInProgress := false })
        else
          (Except.ok (jsTrim fullResponse), { svc2 with requestInProgress := false })

/--
`GeminiService.generateResponse` (single-turn): rejects while the gate
is held, otherwise takes the gate, validates the message, builds the
single `user` content via `createContent` (which validates again), and
delegates to `generateConversationResponse` — with the gate it itself
just took still held.  The `finally` releases the gate at the end.
-/
def generateResponse (svc : GeminiServiceState) (provider : ProviderOutcome)
    (message : String) : Except GeminiError String × GeminiServiceState :=
  if svc.requestInProgress then (Except.error busyError, svc)
  else
    let svc1 : GeminiServiceState := { svc with requestInProgress := true }
    match validateInput svc1.patternStates message with
    | (Except.error e, ps1) =>
      (Except.error e, { svc1 with patternStates := ps1, requestInProgress := false })
    | (Except.ok sanitizedMessage, ps1) =>
      match validateInput ps1 sanitizedMessage with
      | (Except.error e, ps2) =>
        (Except.error e, { svc1 with patternStates := ps2, requestInProgress := false })
      | (Except.ok contentText, ps2) =>
        let contents : List ChatMessage := [⟨Role.user, [⟨some contentText⟩]⟩]
        let r := generateConversationResponse
          { svc1 with patternStates := ps2 } provider contents
        (r.1, { r.2 with requestInProgress := false })

/--
`GeminiService.addUserMessage`: validates the text and appends a `user`
message carrying the trimmed text.
-/
def addUserMessage (ps : DangerousPatternStates) (conversation : List ChatMessage)
    (message : String) :
    Except GeminiError (List ChatMessage) × DangerousPatternStates :=
  match validateInput ps message with
  | (Except.error e, ps1) => (Except.error e, ps1)
  | (Except.ok t, ps1) => (Except.ok (conversation ++ [⟨Role.user, [⟨some t⟩]⟩]), ps1)

/-- `GeminiService.addModelResponse`: appends a `model` message. -/
def addModelResponse (conversation : List ChatMessage) (response : String) :
    List ChatMessage :=
  conversation ++ [⟨Role.model, [⟨some response⟩]⟩]

example :
    (generateConversationResponse freshService (ProviderOutcome.chunks ["Here", "is"])
      [⟨Role.system, [⟨some "ctx"⟩]⟩, ⟨Role.user, [⟨some "hi"⟩]⟩]).1
    = Except.ok "Hereis" := by decide
example :
    (generateConversationResponse freshService (ProviderOutcome.fail "quota exceeded")
      [⟨Role.user, [⟨some "hi"⟩]⟩]).1.toOption = none := by decide
example :
    (generateResponse freshService (ProviderOutcome.chunks ["Here"]) "hi").1
    = Except.error busyError := by decide

/--
The `useGemini` options relevant to the session engine, with the
defaults `maxRetries = 3`, `autoRetry = true`, `maxHistoryLength = 50`.
-/
structure UseGeminiOpts where
  multiTurn : Bool
  maxRetries : Nat
  autoRetry : Bool
  maxHistoryLength : Nat
deriving DecidableEq

/--
The hook's session state: the React state fields used by the engine plus
`lastMessage`, modelling the mutable ref `lastMessageRef.current`.
-/
structure HookState where
  conversation : List ChatMessage
  response : String
  streamingResponse : String
  isLoading : Bool
  error : Option GeminiError
  retryCount : Nat
  lastMessage : String
deriving DecidableEq

/-- An automatic retry registered with `setTimeout`, with its delay. -/
structure ScheduledRetry where
  delay : Nat
deriving DecidableEq

/--
The outcome of one `sendMessage` invocation: the live hook state and
service state afterwards, plus the automatic retry scheduled by the
catch block, if any.
-/
structure SendOutcome where
  state : HookState
  svc : GeminiServiceState
  scheduled : Option ScheduledRetry
deriving DecidableEq

/-- `getRetryDelay`: `Math.min(1000 * Math.pow(2, retryCount), 30000)`. -/
def getRetryDelay (retryCount : Nat) : Nat :=
  min (1000 * 2 ^ retryCount) 30000

/--
`Array.prototype.slice(start)` for a possibly negative JS start index:
a negative start counts from the end, clamped at `0`; a non-negative
start is clamped at the length.
-/
def jsSlice {α : Type} (l : List α) (start : Int) : List α :=
  let len : Int := l.length
  let k : Int := if start < 0 then max (len + start) 0 else min start len
  l.drop k.toNat

/--
`truncateConversation`: a no-op while the length is within the bound;
otherwise keeps every `system` message followed by
`otherMessages.slice(-messagesToKeep)` where
`messagesToKeep = maxLength - systemMessages.length` (a JS number that
can be zero or negative, making the slice start non-negative).
-/
def truncateConversation (conversation : List ChatMessage) (maxLength : Nat) :
    List ChatMessage :=
  if conversation.length ≤ maxLength then conversation
  else
    let systemMessages := conversation.filter (fun m => decide (m.role = Role.system))
    let otherMessages := conversation.filter (fun m => decide (¬ m.role = Role.system))
    let messagesToKeep : Int := (maxLength : Int) - (systemMessages.length : Int)
    let recentMessages := jsSlice otherMessages (- messagesToKeep)
    systemMessages ++ recentMessages

/-- The hook's early-return error for an empty or whitespace message. -/
def emptyMessageError : GeminiError :=
  ⟨GeminiErrorType.INVALID_INPUT, "Message cannot be empty"⟩

/--
The catch block of `sendMessage`: stores the error on the live state,
clears the streaming text, and — whenever auto-retry is on and the
CAPTURED `state.retryCount` is below `maxRetries`, regardless of the
error's kind — schedules a retry after `getRetryDelay` of that captured
count.
-/
def sendFailure (opts : UseGeminiOpts) (cap st : HookState)
    (svc : GeminiServiceState) (e : GeminiError) : SendOutcome :=
  let st1 := { st with isLoading := false, error := some e, streamingResponse := "" }
  let scheduled :=
    if opts.autoRetry && decide (cap.retryCount < opts.maxRetries) then
      some ⟨getRetryDelay cap.retryCount⟩
    else none
  ⟨st1, svc, scheduled⟩

/--
One invocation of the hook's `sendMessage` closure.  `cap` is the state
captured when the closure was created (plain `state.*` reads); `st` is
the live state that the functional `setState` updates act on.  The
empty-message check happens before `lastMessageRef` is set; multi-turn
mode (enabled and captured conversation non-empty) goes through
`addUserMessage` / `generateConversationResponse` and commits both new
messages plus truncation on success; otherwise `generateResponse` is
used.  Any thrown error lands in `sendFailure`.
-/
def sendMessage (opts : UseGeminiOpts) (cap st : HookState)
    (svc : GeminiServiceState) (provider : ProviderOutcome)
    (message : String) : SendOutcome :=
  if jsTrim message = "" then
    ⟨{ st with error := some emptyMessageError }, svc, none⟩
  else
    let st1 := { st with
      lastMessage := message, isLoading := true,
      error := none, streamingResponse := "", retryCount := 0 }
    if opts.multiTurn && decide (0 < cap.conversation.length) then
      match addUserMessage svc.patternStates cap.conversation message with
      | (Except.error e, ps1) =>
        sendFailure opts cap st1 { svc with patternStates := ps1 } e
      | (Except.ok updatedConversation, ps1) =>
        match generateConversationResponse { svc with patternStates := ps1 }
            provider updatedConversation with
        | (Except.ok response, svc1) =>
          let finalConversation := addModelResponse updatedConversation response
          let truncatedConversation :=
            truncateConversation finalConversation opts.maxHistoryLength
          ⟨{ st1 with
              conversation := truncatedConversation, response := response,
              isLoading := false }, svc1, none⟩
        | (Except.error e, svc1) => sendFailure opts cap st1 svc1 e
    else
      match generateResponse svc provider message with
      | (Except.ok response, svc1) =>
        ⟨{ st1 with response := response, isLoading := false }, svc1, none⟩
      | (Except.error e, svc1) => sendFailure opts cap st1 svc1 e

/--
The hook's `retry` callback: resends `lastMessageRef.current` whenever
it is non-empty and an error is present (no check of `retryCount`
against `maxRetries`); otherwise does nothing.  Stated for a quiescent
session, where the captured and live states coincide.
-/
def retryFn (opts : UseGeminiOpts) (st : HookState) (svc : GeminiServiceState)
    (provider : ProviderOutcome) : SendOutcome :=
  if decide (st.lastMessage ≠ "") && st.error.isSome then
    sendMessage opts st st svc provider st.lastMessage
  else ⟨st, svc, none⟩

/-- The hook's exposed `canRetry` boolean. -/
def canRetry (opts : UseGeminiOpts) (st : HookState) : Bool :=
  st.error.isSome && decide (st.lastMessage ≠ "")
    && decide (st.retryCount < opts.maxRetries)

/--
The hook's `addMessage` callback: in single-turn mode only a console
warning is emitted and nothing changes; in multi-turn mode the message
is appended and truncation re-applied.
-/
def addMessage (opts : UseGeminiOpts) (st : HookState) (message : ChatMessage) :
    HookState :=
  if !opts.multiTurn then st
  else
    { st with conversation :=
        truncateConversation (st.conversation ++ [message]) opts.maxHistoryLength }

/--
The automatic-retry chain under a provider that behaves the same on
every attempt, listing the delays of the scheduled retries (up to
`fuel` of them).  The timer callback increments `retryCount` on the
live state and then re-invokes the SAME `sendMessage` closure, so the
captured state `cap` — in particular the `state.retryCount` the catch
block compares against `maxRetries` — never changes along the chain.
-/
def retryChain (opts : UseGeminiOpts) (cap : HookState)
    (provider : ProviderOutcome) (message : String) :
    Nat → HookState → GeminiServiceState → List Nat
  | 0, _, _ => []
  | fuel + 1, st, svc =>
    let r := sendMessage opts cap st svc provider message
    match r.scheduled with
    | none => []
    | some sch =>
      sch.delay :: retryChain opts cap provider message fuel
        { r.state with retryCount := r.state.retryCount + 1 } r.svc

/-- A session seeded with one system message, as `legalContext` does. -/
def sysCtx : ChatMessage := ⟨Role.system, [⟨some "legal context"⟩]⟩

/-- A quiescent hook state holding only the seed system message. -/
def seededState : HookState := ⟨[sysCtx], "", "", false, none, 0, ""⟩

/-- The default options with multi-turn conversation enabled. -/
def optsMulti : UseGeminiOpts := ⟨true, 3, true, 50⟩

/-- The default options in single-turn mode. -/
def optsSingle : UseGeminiOpts := ⟨false, 3, true, 50⟩

/-- Scenario A check: stream fragments are concatenated verbatim into one
model turn, preceded by the new user turn, after the seed system message. -/
example :
    (sendMessage optsMulti seededState seededState freshService
      (ProviderOutcome.chunks ["Here", "is"]) "hello").state.conversation
      = [sysCtx, ⟨Role.user, [⟨some "hello"⟩]⟩, ⟨Role.model, [⟨some "Hereis"⟩]⟩] := by
  decide

lemma dropWhile_shape (p : Char → Bool) (l : List Char) :
    l.dropWhile p = [] ∨
      ∃ a t, l.dropWhile p = a :: t ∧ p a = false := by
  induction l with
  | nil => exact Or.inl rfl
  | cons a t ih =>
    by_cases h : p a
    · simpa [List.dropWhile_cons, h] using ih
    · exact Or.inr ⟨a, t, by simp [List.dropWhile_cons, h], by simpa using h⟩

lemma dropWhile_idem (p : Char → Bool) (l : List Char) :
    (l.dropWhile p).dropWhile p = l.dropWhile p := by
  rcases dropWhile_shape p l with h | ⟨a, t, h, ha⟩
  · simp [h]
  · simp [h, List.dropWhile_cons, ha]

lemma trimRightChars_append (l : List Char) :
    ∃ z, l = trimRightChars l ++ z := by
  refine ⟨(l.reverse.takeWhile jsWhitespace).reverse, ?_⟩
  conv_lhs => rw [← l.reverse_reverse,
    ← List.takeWhile_append_dropWhile jsWhitespace l.reverse]
  rw [List.reverse_append]
  rfl

lemma trimRightChars_idem (A : List Char) :
    trimRightChars (trimRightChars A) = trimRightChars A := by
  unfold trimRightChars
  rw [List.reverse_reverse, dropWhile_idem]

lemma trimRightChars_clean (A : List Char)
    (hAdw : A.dropWhile jsWhitespace = A) :
    (trimRightChars A).dropWhile jsWhitespace = trimRightChars A := by
  rcases trimRightChars_append A with ⟨z, hz⟩
  cases hBval : trimRightChars A with
  | nil => simp
  | cons b B2 =>
    have ht : A = b :: (B2 ++ z) := by
      rw [hz, hBval]; simp
    have hpb : jsWhitespace b = false := by
      rcases dropWhile_shape jsWhitespace A with h | ⟨a, t2, h, ha⟩
      · rw [hAdw] at h
        rw [h] at ht
        exact absurd ht (by simp)
      · rw [hAdw] at h
        rw [h] at ht
        have hab : a = b := by injection ht
        rwa [hab] at ha
    simp [List.dropWhile_cons, hpb]

lemma trimChars_idem (l : List Char) : trimChars (trimChars l) = trimChars l := by
  unfold trimChars
  rw [trimRightChars_clean (l.dropWhile jsWhitespace) (dropWhile_idem _ l),
    trimRightChars_idem]

lemma jsTrim_idem (s : String) : jsTrim (jsTrim s) = jsTrim s := by
  show String.mk (trimChars (String.mk (trimChars s.data)).data) = jsTrim s
  rw [show (String.mk (trimChars s.data)).data = trimChars s.data from rfl,
    trimChars_idem]
  rfl

lemma string_length_zero {s : String} (h : s.length = 0) : s = "" := by
  cases s with
  | mk data =>
    simp [String.length] at h
    simp [h]

lemma jsTestG_false {matchAt : List Char → Nat → Option Nat} {li : Nat}
    {s : List Char} (h : (jsTestG matchAt li s).1 = false) :
    jsTestG matchAt li s = (false, 0) := by
  unfold jsTestG at h ⊢
  cases hf : findMatchEndFrom matchAt s li with
  | some e => rw [hf] at h; simp at h
  | none => rfl

/--
A successful `validateInput` returns the trimmed input, and — since a
failed `g`-flag `test` resets its regex's `lastIndex` — leaves all four
deny-list regexes back in their fresh state; the four tests it ran (from
the incoming `lastIndex` values) all missed.
-/
lemma validateInput_ok {ps ps1 : DangerousPatternStates} {s t : String}
    (h : validateInput ps s = (Except.ok t, ps1)) :
    t = jsTrim s ∧ ps1 = initialPatternStates ∧ s ≠ "" ∧
    (jsTrim s).length ≠ 0 ∧ (jsTrim s).length ≤ 100000 ∧
    (jsTestG scriptTagMatchAt ps.scriptTagLast (jsTrim s).data).1 = false ∧
    (jsTestG jsUriMatchAt ps.jsUriLast (jsTrim s).data).1 = false ∧
    (jsTestG onAttrMatchAt ps.onAttrLast (jsTrim s).data).1 = false ∧
    (jsTestG dataHtmlMatchAt ps.dataHtmlLast (jsTrim s).data).1 = false := by
  simp only [validateInput] at h
  split at h
  · exact absurd (Prod.mk.inj h).1 (by simp)
  rename_i h0
  split at h
  · exact absurd (Prod.mk.inj h).1 (by simp)
  rename_i h1
  split at h
  · exact absurd (Prod.mk.inj h).1 (by simp)
  rename_i h2
  split at h
  · exact absurd (Prod.mk.inj h).1 (by simp)
  rename_i h3
  split at h
  · exact absurd (Prod.mk.inj h).1 (by simp)
  rename_i h4
  split at h
  · exact absurd (Prod.mk.inj h).1 (by simp)
  rename_i h5
  split at h
  · exact absurd (Prod.mk.inj h).1 (by simp)
  rename_i h6
  obtain ⟨hok, hps⟩ := Prod.mk.inj h
  have hb3 : (jsTestG scriptTagMatchAt ps.scriptTagLast (jsTrim s).data).1 = false := by
    simpa using h3
  have hb4 : (jsTestG jsUriMatchAt ps.jsUriLast (jsTrim s).data).1 = false := by
    simpa using h4
  have hb5 : (jsTestG onAttrMatchAt ps.onAttrLast (jsTrim s).data).1 = false := by
    simpa using h5
  have hb6 : (jsTestG dataHtmlMatchAt ps.dataHtmlLast (jsTrim s).data).1 = false := by
    simpa using h6
  refine ⟨(Except.ok.inj hok).symm, ?_, h0, h1, not_lt.mp h2, hb3, hb4, hb5, hb6⟩
  rw [← hps]
  simp [jsTestG_false hb3, jsTestG_false hb4, jsTestG_false hb5, jsTestG_false hb6,
    initialPatternStates]

/--
Conversely, a non-empty, already-trimmed, short-enough text missed by
all four deny-list patterns passes `validateInput` from fresh regex
states, returning itself and fresh states.
-/
lemma validateInput_of_clean {u : String}
    (h0 : u ≠ "") (h1 : jsTrim u = u) (h2 : u.length ≤ 100000)
    (t1 : (jsTestG scriptTagMatchAt 0 u.data).1 = false)
    (t2 : (jsTestG jsUriMatchAt 0 u.data).1 = false)
    (t3 : (jsTestG onAttrMatchAt 0 u.data).1 = false)
    (t4 : (jsTestG dataHtmlMatchAt 0 u.data).1 = false) :
    validateInput initialPatternStates u = (Except.ok u, initialPatternStates) := by
  have hlen0 : ¬ u.length = 0 := fun hl => h0 (string_length_zero hl)
  have hlen1 : ¬ 100000 < u.length := not_lt.mpr h2
  simp only [validateInput, initialPatternStates, h1, jsTestG_false t1,
    jsTestG_false t2, jsTestG_false t3, jsTestG_false t4]
  simp [h0, hlen0, hlen1]

/-- A text accepted from fresh regex states is accepted again (trimming
is idempotent and the fresh-state tests repeat identically). -/
lemma validateInput_trim_again {s t : String}
    (h : validateInput initialPatternStates s = (Except.ok t, initialPatternStates)) :
    validateInput initialPatternStates t = (Except.ok t, initialPatternStates) := by
  obtain ⟨ht, -, -, hlen0, hlen1, t1, t2, t3, t4⟩ := validateInput_ok h
  subst ht
  refine validateInput_of_clean ?_ (jsTrim_idem s) hlen1 t1 t2 t3 t4
  intro hc
  rw [hc] at hlen0
  exact hlen0 rfl

/--
Core of the self-locking defect: with the gate initially free and a
message that fresh-state validation accepts, `generateResponse` takes
the gate itself and then delegates to `generateConversationResponse`,
whose own gate check sees the flag already set and throws the busy
`RATE_LIMIT` error without reaching the provider.
-/
lemma generateResponse_locks_itself {svc : GeminiServiceState}
    {message t : String} (provider : ProviderOutcome)
    (hflag : svc.requestInProgress = false)
    (hps : svc.patternStates = initialPatternStates)
    (hval : validateInput initialPatternStates message
      = (Except.ok t, initialPatternStates)) :
    generateResponse svc provider message
      = (Except.error busyError, { svc with requestInProgress := false }) := by
  have hval2 := validateInput_trim_again hval
  simp only [generateResponse, hflag, hps, hval, hval2, generateConversationResponse]
  simp

/--
C3: for every message that passes input validation, a
`GeminiService.generateResponse` call made while no other request is in
progress never resolves with generated text: it always throws the
`RATE_LIMIT`-classified busy `GeminiError` (having set
`requestInProgress` itself before delegating to
`generateConversationResponse`, which rejects on seeing the flag), the
provider is never contacted, and consequently every single-turn
`sendMessage` of the hook fails with that error.
-/
theorem generateResponse_always_rate_limited
    (svc : GeminiServiceState) (provider : ProviderOutcome) (message t : String)
    (hflag : svc.requestInProgress = false)
    (hps : svc.patternStates = initialPatternStates)
    (hval : validateInput initialPatternStates message
      = (Except.ok t, initialPatternStates)) :
    (generateResponse svc provider message).1 = Except.error busyError ∧
    (generateResponse svc provider message).2.providerCalls = svc.providerCalls ∧
    ∀ (opts : UseGeminiOpts) (cap st : HookState), opts.multiTurn = false →
      (sendMessage opts cap st svc provider message).state.error = some busyError := by
  have key := generateResponse_locks_itself provider hflag hps hval
  refine ⟨by rw [key], by rw [key], ?_⟩
  intro opts cap st hmt
  obtain ⟨ht, -, -, hlen0, -, -⟩ := validateInput_ok hval
  have htrim : ¬ jsTrim message = "" := by
    intro hc
    rw [hc] at hlen0
    exact hlen0 rfl
  simp only [sendMessage]
  rw [if_neg htrim]
  simp [hmt, key, sendFailure]

/-- C3 witness: the busy self-lock at the concrete message `"hello"`. -/
theorem generateResponse_always_rate_limited_witness :
    (generateResponse freshService (ProviderOutcome.chunks ["Here"]) "hello").1
      = Except.error busyError ∧
    (sendMessage optsSingle seededState seededState freshService
      (ProviderOutcome.chunks ["Here"]) "hello").state.error = some busyError := by
  have h := generateResponse_always_rate_limited freshService
    (ProviderOutcome.chunks ["Here"]) "hello" "hello" rfl rfl (by decide)
  exact ⟨h.1, h.2.2 optsSingle seededState seededState rfl⟩

/--
C8: the automatic backoff delay computed for attempt `n` equals
`min(1000 * 2^n, 30000)` milliseconds; in particular the first attempts
wait 1 s, 2 s, 4 s and the delay is capped at 30 s from attempt 5 on.
-/
theorem getRetryDelay_formula :
    (∀ n : Nat, getRetryDelay n = min (1000 * 2 ^ n) 30000) ∧
    getRetryDelay 0 = 1000 ∧ getRetryDelay 1 = 2000 ∧ getRetryDelay 2 = 4000 ∧
    getRetryDelay 3 = 8000 ∧ getRetryDelay 4 = 16000 ∧
    getRetryDelay 5 = 30000 ∧ getRetryDelay 20 = 30000 := by
  refine ⟨fun n => rfl, ?_, ?_, ?_, ?_, ?_, ?_, ?_⟩ <;> decide

/--
C9: `validateInput` is not a deterministic function of its argument:
the deny-list regexes are shared objects with the `g` flag, so after the
input `"javascript:"` is rejected (`INVALID_INPUT`), the `javascript:`
pattern's `lastIndex` sits at the match end, and an immediately repeated
call on the identical string finds no match from there and succeeds,
returning the trimmed text.
-/
theorem validateInput_stateful_nondeterministic :
    (validateInput initialPatternStates "javascript:").1
      = Except.error dangerousContentError ∧
    dangerousContentError.type = GeminiErrorType.INVALID_INPUT ∧
    (validateInput (validateInput initialPatternStates "javascript:").2
      "javascript:").1 = Except.ok "javascript:" := by
  refine ⟨by decide, rfl, by decide⟩

/--
C10: with `multiTurn = false`, `addMessage` is a no-op for every
message — the hook state is returned unchanged (only a console warning
is emitted in the source).
-/
theorem addMessage_singleTurn_noop (opts : UseGeminiOpts) (st : HookState)
    (message : ChatMessage) (h : opts.multiTurn = false) :
    addMessage opts st message = st := by
  simp [addMessage, h]

/-- C10 witness: concrete single-turn `addMessage` no-op. -/
theorem addMessage_singleTurn_noop_witness :
    addMessage optsSingle seededState sysCtx = seededState :=
  addMessage_singleTurn_noop optsSingle seededState sysCtx rfl

/-- A concrete user message used by small counterexamples. -/
def userU : ChatMessage := ⟨Role.user, [⟨some "u"⟩]⟩

/-- A concrete model message used by small counterexamples. -/
def modelM : ChatMessage := ⟨Role.model, [⟨some "m"⟩]⟩

/--
C2 counterexample: with one system message and one user message,
`truncate(1)` (a bound equal to the system count, so within the claim's
`N ≥ system count` range) keeps BOTH messages — `slice(-0)` is
`slice(0)` — so the result's length exceeds the bound; and with two
system messages, `truncate(1)` (below the system count) still keeps the
most recent non-system message, so non-system messages are NOT all
dropped before system messages.
-/
theorem truncateConversation_bound_fails :
    (truncateConversation [sysCtx, userU] 1).length = 2 ∧
    truncateConversation [sysCtx, sysCtx, userU,
        ⟨Role.user, [⟨some "u2"⟩]⟩] 1
      = [sysCtx, sysCtx, ⟨Role.user, [⟨some "u2"⟩]⟩] := by
  refine ⟨by decide, by decide⟩

/--
C2 amended: for every conversation consisting of a system prefix
followed by non-system messages and every bound N STRICTLY greater than
the system-message count, `truncate(N)` returns exactly
`[all system messages] ++ [the N - systemCount most recent non-system
messages]` with relative order preserved, and its length is at most N
(for `N ≤ systemCount` no such bound holds, per the counterexample).
-/
theorem truncateConversation_amended (sys rest : List ChatMessage) (N : Nat)
    (hsys : ∀ m ∈ sys, m.role = Role.system)
    (hrest : ∀ m ∈ rest, m.role ≠ Role.system)
    (hN : sys.length < N) :
    truncateConversation (sys ++ rest) N
      = sys ++ rest.drop (rest.length - min (N - sys.length) rest.length) ∧
    (truncateConversation (sys ++ rest) N).length ≤ N := by
  have hfilS : (sys ++ rest).filter (fun m => decide (m.role = Role.system)) = sys := by
    rw [List.filter_append,
      List.filter_eq_self.mpr (fun a ha => by simpa using hsys a ha),
      List.filter_eq_nil_iff.mpr (fun a ha => by simpa using hrest a ha)]
    simp
  have hfilO : (sys ++ rest).filter (fun m => decide (¬ m.role = Role.system)) = rest := by
    rw [List.filter_append,
      List.filter_eq_nil_iff.mpr (fun a ha => by simp [hsys a ha]),
      List.filter_eq_self.mpr (fun a ha => by simpa using hrest a ha)]
    simp
  have hmain : truncateConversation (sys ++ rest) N
      = sys ++ rest.drop (rest.length - min (N - sys.length) rest.length) := by
    by_cases hle : (sys ++ rest).length ≤ N
    · have hmin : min (N - sys.length) rest.length = rest.length := by
        rw [List.length_append] at hle
        omega
      simp only [truncateConversation, if_pos hle, hmin]
      simp
    · simp only [truncateConversation, if_neg hle, hfilS, hfilO]
      congr 1
      have hneg : (-(((N : Int)) - ((sys.length : Nat) : Int))) < 0 := by omega
      simp only [jsSlice, if_pos hneg]
      congr 1
      omega
  refine ⟨hmain, ?_⟩
  rw [hmain]
  simp only [List.length_append, List.length_drop]
  omega

/-- C2 amended witness: one system message, two turns, bound 2. -/
theorem truncateConversation_amended_witness :
    truncateConversation ([sysCtx] ++ [userU, modelM]) 2
      = [sysCtx] ++ List.drop
          (([userU, modelM] : List ChatMessage).length
            - min (2 - ([sysCtx] : List ChatMessage).length)
                ([userU, modelM] : List ChatMessage).length)
          [userU, modelM]
    ∧ (truncateConversation ([sysCtx] ++ [userU, modelM]) 2).length ≤ 2 :=
  truncateConversation_amended [sysCtx] [userU, modelM] 2
    (by decide) (by decide) (by decide)

lemma addUserMessage_ok {ps ps1 : DangerousPatternStates}
    {conv u : List ChatMessage} {msg : String}
    (h : addUserMessage ps conv msg = (Except.ok u, ps1)) :
    u = conv ++ [⟨Role.user, [⟨some (jsTrim msg)⟩]⟩] := by
  unfold addUserMessage at h
  cases hv : validateInput ps msg with
  | mk res ps2 =>
    rw [hv] at h
    cases res with
    | error e2 => simp at h
    | ok t =>
      obtain ⟨h1, -⟩ := Prod.mk.inj h
      obtain ⟨ht, -⟩ := validateInput_ok hv
      rw [← Except.ok.inj h1, ht]

/--
C5 counterexample: a successful multi-turn send leaves
`lastAttemptedMessage` equal to the sent message — the source never
clears `lastMessageRef` on success (only `clearConversation` does) — so
"cleared on success" fails.
-/
theorem send_success_keeps_lastMessage :
    (sendMessage optsMulti seededState seededState freshService
      (ProviderOutcome.chunks ["Here", "is"]) "hello").state.error = none ∧
    (sendMessage optsMulti seededState seededState freshService
      (ProviderOutcome.chunks ["Here", "is"]) "hello").state.lastMessage
      = "hello" := by
  refine ⟨by decide, by decide⟩

/--
C5 amended: every successful multi-turn send appends exactly one user
message (the trimmed text) followed by exactly one model message (the
accumulated response) to the captured conversation, in that order,
before truncation is applied; `lastAttemptedMessage` is SET to the sent
message and stays there (it is cleared only by `clearConversation`,
never on success), and no retry is scheduled.
-/
theorem send_success_amended (opts : UseGeminiOpts) (cap st : HookState)
    (svc : GeminiServiceState) (provider : ProviderOutcome) (message : String)
    (hmt : opts.multiTurn = true) (hconv : 0 < cap.conversation.length)
    (hok : (sendMessage opts cap st svc provider message).state.error = none) :
    (sendMessage opts cap st svc provider message).state.conversation
      = truncateConversation
          (addModelResponse
            (cap.conversation ++ [⟨Role.user, [⟨some (jsTrim message)⟩]⟩])
            ((sendMessage opts cap st svc provider message).state.response))
          opts.maxHistoryLength ∧
    (sendMessage opts cap st svc provider message).state.lastMessage = message ∧
    (sendMessage opts cap st svc provider message).scheduled = none := by
  by_cases htrim : jsTrim message = ""
  · simp [sendMessage, htrim] at hok
  · have hcond : (opts.multiTurn && decide (0 < cap.conversation.length)) = true := by
      simp [hmt, hconv]
    simp only [sendMessage, if_neg htrim, if_pos hcond] at hok ⊢
    cases ha : addUserMessage svc.patternStates cap.conversation message with
    | mk res ps1 =>
      rw [ha] at hok
      cases res with
      | error e => simp [sendFailure] at hok
      | ok u =>
        have hu := addUserMessage_ok ha
        dsimp only at hok ⊢
        cases hg : generateConversationResponse { svc with patternStates := ps1 }
            provider u with
        | mk res2 svc1 =>
          rw [hg] at hok
          cases res2 with
          | error e => simp [sendFailure] at hok
          | ok response =>
            dsimp only
            rw [← hu]
            exact ⟨rfl, rfl, rfl⟩

/-- C5 amended witness: the concrete successful send of `"hello"`. -/
theorem send_success_amended_witness :
    (sendMessage optsMulti seededState seededState freshService
      (ProviderOutcome.chunks ["Here", "is"]) "hello").state.conversation
      = truncateConversation
          (addModelResponse
            (seededState.conversation ++ [⟨Role.user, [⟨some (jsTrim "hello")⟩]⟩])
            ((sendMessage optsMulti seededState seededState freshService
              (ProviderOutcome.chunks ["Here", "is"]) "hello").state.response))
          optsMulti.maxHistoryLength ∧
    (sendMessage optsMulti seededState seededState freshService
      (ProviderOutcome.chunks ["Here", "is"]) "hello").state.lastMessage = "hello" ∧
    (sendMessage optsMulti seededState seededState freshService
      (ProviderOutcome.chunks ["Here", "is"]) "hello").scheduled = none :=
  send_success_amended optsMulti seededState seededState freshService
    (ProviderOutcome.chunks ["Here", "is"]) "hello" rfl (by decide) (by decide)

/-- The failed-and-exhausted session state used against `retry()`. -/
def exhaustedState : HookState :=
  ⟨[sysCtx, ⟨Role.user, [⟨some "prev"⟩]⟩], "", "", false, some busyError, 5, "hi"⟩

/--
C7 counterexample: with an error present, `lastAttemptedMessage = "hi"`
and `attemptCount = 5 ≥ maxRetries = 3`, `retry()` is NOT a no-op: it
resends — the provider is contacted (one more provider call) and the
session state changes (`retryCount` is reset to 0) — because the source
checks only `lastMessageRef.current && state.error`.
-/
theorem retryFn_ignores_maxRetries :
    exhaustedState.retryCount = 5 ∧ optsMulti.maxRetries = 3 ∧
    exhaustedState.error.isSome = true ∧ exhaustedState.lastMessage = "hi" ∧
    (retryFn optsMulti exhaustedState freshService
      (ProviderOutcome.chunks ["ok"])).svc.providerCalls
      = freshService.providerCalls + 1 ∧
    (retryFn optsMulti exhaustedState freshService
      (ProviderOutcome.chunks ["ok"])).state.retryCount = 0 := by
  refine ⟨rfl, rfl, rfl, rfl, by decide, by decide⟩

/--
C7 amended: `retry()` resends exactly when the error is non-null and
`lastAttemptedMessage` is non-empty — `attemptCount < maxRetries` is NOT
checked by `retry()` itself (only by the separate `canRetry` flag); when
the error is null or the stored message empty, `retry()` is a no-op
leaving the entire session state unchanged.
-/
theorem retryFn_amended :
    (∀ (opts : UseGeminiOpts) (st : HookState) (svc : GeminiServiceState)
      (provider : ProviderOutcome), st.error = none ∨ st.lastMessage = "" →
      retryFn opts st svc provider = ⟨st, svc, none⟩) ∧
    (∀ (opts : UseGeminiOpts) (st : HookState) (svc : GeminiServiceState)
      (provider : ProviderOutcome), st.error.isSome = true → st.lastMessage ≠ "" →
      retryFn opts st svc provider
        = sendMessage opts st st svc provider st.lastMessage) := by
  constructor
  · intro opts st svc provider h
    rcases h with h | h <;> simp [retryFn, h]
  · intro opts st svc provider h1 h2
    simp [retryFn, h1, h2]

/-- C7 amended witness: a no-op case and a resending case. -/
theorem retryFn_amended_witness :
    retryFn optsMulti seededState freshService (ProviderOutcome.chunks ["ok"])
      = ⟨seededState, freshService, none⟩ ∧
    retryFn optsMulti exhaustedState freshService (ProviderOutcome.chunks ["ok"])
      = sendMessage optsMulti exhaustedState exhaustedState freshService
          (ProviderOutcome.chunks ["ok"]) exhaustedState.lastMessage :=
  ⟨retryFn_amended.1 optsMulti seededState freshService _ (Or.inl rfl),
    retryFn_amended.2 optsMulti exhaustedState freshService _ rfl (by decide)⟩

/--
C1 (code-defect evidence): with `autoRetry = true`, `maxRetries = 3` and
a provider failing every attempt with a `"quota exceeded"` error
(classified `RATE_LIMIT`), the automatic-retry chain schedules a FOURTH
and a FIFTH retry — it never gives up — and every delay equals
`getRetryDelay 0 = 1000` ms rather than 1 s, 2 s, 4 s: the catch block
compares the stale captured `retryCount` (always 0 along the
self-recursive timer chain) against `maxRetries`, and each re-entry
resets the live `retryCount` to 0.
-/
theorem autoRetry_chain_constant_delay :
    retryChain optsMulti seededState (ProviderOutcome.fail "quota exceeded")
      "hello" 5 seededState freshService = [1000, 1000, 1000, 1000, 1000] ∧
    (sendMessage optsMulti seededState seededState freshService
      (ProviderOutcome.fail "quota exceeded") "hello").state.error
      = some ⟨GeminiErrorType.RATE_LIMIT,
          "API rate limit exceeded. Please try again later."⟩ ∧
    optsMulti.autoRetry = true ∧ optsMulti.maxRetries = 3 := by
  refine ⟨by decide, by decide, rfl, rfl⟩

end LegallyAssist
